import Mathlib

/-!
Shallow embedding of the standlog-server session controller
(`src/controllers/session.controller.ts`): session creation, batched
event logging, report aggregation with optional LLM enrichment, and the
latest-report freshness policy.  The database (Prisma/Postgres) is
modelled as explicit state; the external summarization collaborator is
modelled by the raw text of its response together with a `JSON.parse`
oracle `parse : String → Option Json` (parse failure, caught by the
`try/catch` in the code, is `none`).
-/

/-- Opaque JSON values, the carrier for `metadata`, event payloads and
report payloads (Prisma `Json` columns). -/
inductive Json where
  | null : Json
  | bool : Bool → Json
  | num : Int → Json
  | str : String → Json
  | arr : List Json → Json
  | obj : List (String × Json) → Json

/-- A `Session` row: generated id, the client's `anonymousId`, and the
opaque `metadata` object stored verbatim (`prisma.session.create`). -/
structure Session where
  id : String
  anonymousId : String
  metadata : Json

/-- An `Event` row as written by `prisma.event.createMany`: the stamped
owning `sessionId` spread together with the supplied event object
(`{ sessionId, ...event }`). -/
structure EventRow where
  sessionId : String
  type : String
  metadata : Json
  data : Json

/-- A `Reports` row: generated id, the opaque `data` payload (nullable
Json column) and the `createdAt` timestamp in milliseconds
(`Date.getTime()`). -/
structure Report where
  id : Nat
  data : Option Json
  createdAt : Int

/-- The persistent store: the `session`, `event` and `reports` tables,
plus the id supply for new report rows. -/
structure Db where
  sessions : List Session
  events : List EventRow
  reports : List Report
  nextReportId : Nat

/-- An event object supplied in the body of `POST /api/event`; the
controller stamps it with the owning `sessionId` before insertion. -/
structure EventInput where
  type : String
  metadata : Json
  data : Json

/-- `{ sessionId, ...event }` : the row inserted for one supplied event. -/
def stampEvent (sid : String) (e : EventInput) : EventRow :=
  { sessionId := sid, type := e.type, metadata := e.metadata, data := e.data }

/-- Body of `POST /api/session`; absent fields are `none`
(JS `undefined`). -/
structure CreateSessionBody where
  anonymousId : Option String
  metadata : Json

/-- The JSON response of `createSession`. -/
structure CreateSessionResponse where
  status : Nat
  success : Bool
  id : Option String
  anonymousId : Option String
  error : Option String

/-- `!anonymousId` / `!sessionId` : a missing field or the empty string
is falsy in JS. -/
def falsyStr : Option String → Bool
  | none => true
  | some s => s.isEmpty

/-- `createSession` (session.controller.ts): rejects a falsy
`anonymousId` with 400, otherwise persists a new `Session` row under the
generated identifier `freshId` (Prisma id generation, passed in
explicitly) and answers 201 echoing the id and `anonymousId`. -/
def createSession (body : CreateSessionBody) (freshId : String) (db : Db) :
    CreateSessionResponse × Db :=
  match body.anonymousId with
  | none =>
      ({ status := 400, success := false, id := none, anonymousId := none,
         error := some "anonymousId is required" }, db)
  | some a =>
      if a.isEmpty then
        ({ status := 400, success := false, id := none, anonymousId := none,
           error := some "anonymousId is required" }, db)
      else
        ({ status := 201, success := true, id := some freshId,
           anonymousId := some a, error := none },
         { db with sessions :=
             db.sessions ++ [{ id := freshId, anonymousId := a,
                               metadata := body.metadata }] })

/-- Body of `POST /api/event`; `events := none` models a body with no
`events` array (JS `undefined`). -/
structure LogEventBody where
  sessionId : Option String
  events : Option (List EventInput)

/-- The JSON response of `logEvent`. -/
structure LogEventResponse where
  status : Nat
  success : Bool
  eventsProcessed : Option Nat
  sessionId : Option String
  error : Option String

/-- `logEvent` (session.controller.ts): 400 on a falsy `sessionId`;
404 when `prisma.session.findUnique` finds no session with that id;
otherwise `prisma.event.createMany` bulk-inserts every supplied event
stamped with the `sessionId` and the call answers 201 with the inserted
count.  When the body has no `events` array, `events.map` throws a
`TypeError` which the surrounding `try/catch` converts to a 500. -/
def logEvent (body : LogEventBody) (db : Db) : LogEventResponse × Db :=
  match body.sessionId with
  | none =>
      ({ status := 400, success := false, eventsProcessed := none,
         sessionId := none, error := some "sessionId and type are required" }, db)
  | some sid =>
      if sid.isEmpty then
        ({ status := 400, success := false, eventsProcessed := none,
           sessionId := none, error := some "sessionId and type are required" }, db)
      else if (db.sessions.find? (fun s => s.id == sid)).isNone then
        ({ status := 404, success := false, eventsProcessed := none,
           sessionId := none, error := some "Session not found" }, db)
      else
        match body.events with
        | none =>
            ({ status := 500, success := false, eventsProcessed := none,
               sessionId := none, error := some "Internal server error" }, db)
        | some evs =>
            let rows := evs.map (stampEvent sid)
            ({ status := 201, success := true,
               eventsProcessed := some rows.length, sessionId := some sid,
               error := none },
             { db with events := db.events ++ rows })

/-- `acc[t] || 0` : look a type tag up in the accumulated count object,
defaulting to zero when the key is absent. -/
def lookupCount : List (String × Nat) → String → Nat
  | [], _ => 0
  | (k, v) :: rest, t => if k = t then v else lookupCount rest t

/-- `acc[event.type] = (acc[event.type] || 0) + 1` : increment the count
stored under `t`, appending a fresh key when absent (JS object key
insertion order). -/
def bump : List (String × Nat) → String → List (String × Nat)
  | [], t => [(t, 1)]
  | (k, v) :: rest, t =>
      if k = t then (k, v + 1) :: rest else (k, v) :: bump rest t

/-- `session.events.reduce((acc, event) => {...}, {})` : the per-type
occurrence counts of a session's events. -/
def eventsByType (evs : List EventRow) : List (String × Nat) :=
  evs.foldl (fun acc e => bump acc e.type) []

/-- `include: { events: true }` : the events belonging to one session. -/
def sessionEvents (db : Db) (sid : String) : List EventRow :=
  db.events.filter (fun e => e.sessionId == sid)

/-- The per-session entry of the assembled aggregate. -/
structure SessionSummary where
  id : String
  anonymousId : String
  metadata : Json
  data : List EventRow
  totalEvents : Nat
  eventsByType : List (String × Nat)

/-- The `reportData` aggregate assembled by `generateReport`. -/
structure ReportData where
  totalSessions : Nat
  sessions : List SessionSummary

/-- One entry of `reportData.sessions`. -/
def summarize (db : Db) (s : Session) : SessionSummary :=
  let evs := sessionEvents db s.id
  { id := s.id, anonymousId := s.anonymousId, metadata := s.metadata,
    data := evs, totalEvents := evs.length, eventsByType := eventsByType evs }

/-- The `reportData` object built at the start of `generateReport` from
`prisma.session.findMany({ include: { events: true } })`. -/
def buildReportData (db : Db) : ReportData :=
  { totalSessions := db.sessions.length,
    sessions := db.sessions.map (summarize db) }

/-- JS `\s` on the characters relevant here (space, tab, line feed,
carriage return, vertical tab, form feed; the Unicode space characters
of the JS class are treated alike and omitted). -/
def isJsWhitespace (c : Char) : Bool :=
  c = ' ' || c = '\t' || c = '\n' || c = '\r' || c = '\x0b' || c = '\x0c'

/-- Does `s` begin with `pat`? -/
def startsWithChars : List Char → List Char → Bool
  | [], _ => true
  | _ :: _, [] => false
  | p :: ps, c :: cs => p = c && startsWithChars ps cs

/-- The characters strictly before the first occurrence of ` ``` `,
or `none` when no closing fence exists: the lazy group `([\s\S]*?)`
followed by the closing fence. -/
def takeUntilFence : List Char → Option (List Char)
  | [] => none
  | c :: rest =>
      if startsWithChars "```".toList (c :: rest) then some []
      else (takeUntilFence rest).map (fun l => c :: l)

/-- Match the pattern at exactly this position: the literal
` ```json `, greedy `\s*`, then the lazy capture up to the closing
fence. -/
def matchFencedAt (s : List Char) : Option (List Char) :=
  if startsWithChars "```json".toList s then
    takeUntilFence ((s.drop 7).dropWhile isJsWhitespace)
  else none

/-- Leftmost-match search of the pattern over the whole string. -/
def findFenced : List Char → Option (List Char)
  | [] => none
  | c :: rest =>
      match matchFencedAt (c :: rest) with
      | some cap => some cap
      | none => findFenced rest

/-- `rawText.match(/```json\s*([\s\S]*?)```/)` : the first captured
group, when the pattern matches. -/
def extractJsonBlock (s : String) : Option String :=
  (findFenced s.data).map String.mk

/-- The `parsedData` computed by `generateReport`: `null` unless the
fenced block exists, is truthy (non-empty: `jsonMatch[1]` must be
truthy) and `JSON.parse` succeeds on it. -/
def parsedDataOf (rawText : String) (parse : String → Option Json) :
    Option Json :=
  match extractJsonBlock rawText with
  | none => none
  | some s => if s.isEmpty then none else parse s

/-- `generateReport` (enriched variant): assemble the `reportData`
aggregate, send it to the collaborator (whose response text is
`rawText`), best-effort extract and parse one fenced JSON block, and
persist `parsedData` as a new `Reports` row stamped `now`.  The
assembled aggregate itself only feeds the collaborator prompt. -/
def generateReport (db : Db) (now : Int) (rawText : String)
    (parse : String → Option Json) : Report × Db :=
  let parsedData := parsedDataOf rawText parse
  let newReport : Report :=
    { id := db.nextReportId, data := parsedData, createdAt := now }
  (newReport,
   { db with reports := db.reports ++ [newReport],
             nextReportId := db.nextReportId + 1 })

/-- `prisma.reports.findFirst({ orderBy: { createdAt: "desc" } })` :
the row with the maximal `createdAt` (first written wins ties). -/
def latestReport (rs : List Report) : Option Report :=
  rs.foldl
    (fun acc r =>
      match acc with
      | none => some r
      | some b => if b.createdAt < r.createdAt then some r else some b)
    none

/-- The JSON response of `getLatestReport`. -/
structure ReportResponse where
  status : Nat
  report : Report

/-- `getLatestReport` (session.controller.ts): fetch the most recent
report; if none exists generate one; otherwise compute
`diffInMinutes = (now - createdAt) / 1000 / 60` and regenerate when it
is `> 0`, else serve the cached row.  Both successful branches answer
200. -/
def getLatestReport (db : Db) (now : Int) (rawText : String)
    (parse : String → Option Json) : ReportResponse × Db :=
  match latestReport db.reports with
  | none =>
      let rp := generateReport db now rawText parse
      ({ status := 200, report := rp.1 }, rp.2)
  | some latest =>
      let diffInMinutes : ℚ := ((now : ℚ) - (latest.createdAt : ℚ)) / 1000 / 60
      if 0 < diffInMinutes then
        let rp := generateReport db now rawText parse
        ({ status := 200, report := rp.1 }, rp.2)
      else
        ({ status := 200, report := latest }, db)

/-! ### Counting lemmas for the per-type aggregation -/

/-- Bumping a type tag increments exactly its stored count. -/
theorem lookupCount_bump_self (m : List (String × Nat)) (t : String) :
    lookupCount (bump m t) t = lookupCount m t + 1 := by
  induction m with
  | nil => simp [bump, lookupCount]
  | cons kv rest ih =>
      obtain ⟨k, v⟩ := kv
      by_cases h : k = t
      · simp [bump, lookupCount, h]
      · simp [bump, lookupCount, h, ih]

/-- Bumping one type tag leaves every other tag's count unchanged. -/
theorem lookupCount_bump_ne (m : List (String × Nat)) (u t : String)
    (h : u ≠ t) : lookupCount (bump m u) t = lookupCount m t := by
  induction m with
  | nil => simp [bump, lookupCount, h]
  | cons kv rest ih =>
      obtain ⟨k, v⟩ := kv
      by_cases hk : k = u
      · subst hk
        simp [bump, lookupCount, h]
      · simp [bump, lookupCount, hk, ih]

/-- Folding the reducer over an event list adds, for every tag, exactly
the number of events carrying that tag. -/
theorem lookupCount_foldl (evs : List EventRow) (acc : List (String × Nat))
    (t : String) :
    lookupCount (evs.foldl (fun a e => bump a e.type) acc) t
      = lookupCount acc t + evs.countP (fun e => e.type == t) := by
  induction evs generalizing acc with
  | nil => simp
  | cons e rest ih =>
      rw [List.foldl_cons, ih, List.countP_cons]
      by_cases h : e.type = t
      · subst h
        rw [lookupCount_bump_self]
        simp
        omega
      · rw [lookupCount_bump_ne _ _ _ h]
        simp [h]

/-- The per-type counts of an event list are exactly its occurrence
counts. -/
theorem lookupCount_eventsByType (evs : List EventRow) (t : String) :
    lookupCount (eventsByType evs) t = evs.countP (fun e => e.type == t) := by
  rw [eventsByType, lookupCount_foldl]
  simp [lookupCount]

/-- C2: the aggregate built by `generateReport` has `totalSessions`
equal to the number of sessions, and for each session `totalEvents`
equal to the number of that session's events and `eventsByType` mapping
each event type to its exact occurrence count among that session's
events. -/
theorem generateReport_aggregate_counts (db : Db) :
    (buildReportData db).totalSessions = db.sessions.length ∧
    (buildReportData db).sessions = db.sessions.map (summarize db) ∧
    ∀ s, s ∈ db.sessions →
      (summarize db s).totalEvents = (sessionEvents db s.id).length ∧
      ∀ t, lookupCount (summarize db s).eventsByType t
            = (sessionEvents db s.id).countP (fun e => e.type == t) := by
  refine ⟨rfl, rfl, ?_⟩
  intro s _
  exact ⟨rfl, fun t => lookupCount_eventsByType (sessionEvents db s.id) t⟩

/-- The session used in the C2 witness. -/
def sessionC2 : Session :=
  { id := "s1", anonymousId := "anon-1", metadata := Json.null }

/-- A store with one session owning 3 CLICK and 2 SCROLL events. -/
def dbC2 : Db :=
  { sessions := [sessionC2],
    events :=
      [ { sessionId := "s1", type := "CLICK", metadata := Json.null, data := Json.null },
        { sessionId := "s1", type := "CLICK", metadata := Json.null, data := Json.null },
        { sessionId := "s1", type := "SCROLL", metadata := Json.null, data := Json.null },
        { sessionId := "s1", type := "CLICK", metadata := Json.null, data := Json.null },
        { sessionId := "s1", type := "SCROLL", metadata := Json.null, data := Json.null } ],
    reports := [], nextReportId := 0 }

/-- Witness for C2: on 3 CLICK and 2 SCROLL events the aggregate counts
are exactly 3 and 2. -/
theorem generateReport_aggregate_counts_witness :
    (sessionC2 ∈ dbC2.sessions ∧
      lookupCount (summarize dbC2 sessionC2).eventsByType "CLICK"
        = (sessionEvents dbC2 sessionC2.id).countP (fun e => e.type == "CLICK")) ∧
    lookupCount (summarize dbC2 sessionC2).eventsByType "CLICK" = 3 ∧
    lookupCount (summarize dbC2 sessionC2).eventsByType "SCROLL" = 2 ∧
    (summarize dbC2 sessionC2).totalEvents = 5 :=
  ⟨⟨List.mem_singleton.mpr rfl,
    ((generateReport_aggregate_counts dbC2).2.2 sessionC2
        (List.mem_singleton.mpr rfl)).2 "CLICK"⟩,
   by decide, by decide, by decide⟩

/-- C3: `getLatestReport` in a state with no existing report generates
exactly one new report and returns it with a success status, never an
error. -/
theorem getLatestReport_empty_history (db : Db) (now : Int) (rawText : String)
    (parse : String → Option Json) (h : db.reports = []) :
    (getLatestReport db now rawText parse).1.status = 200 ∧
    (getLatestReport db now rawText parse).1.report
      = (generateReport db now rawText parse).1 ∧
    (getLatestReport db now rawText parse).2.reports
      = db.reports ++ [(getLatestReport db now rawText parse).1.report] := by
  have hl : latestReport db.reports = none := by rw [h]; rfl
  simp [getLatestReport, hl, generateReport]

/-- An empty store for the C3 witness. -/
def dbC3 : Db := { sessions := [], events := [], reports := [], nextReportId := 0 }

/-- Witness for C3 at the empty store. -/
theorem getLatestReport_empty_history_witness :
    dbC3.reports = [] ∧
    (getLatestReport dbC3 0 "" (fun _ => none)).1.status = 200 :=
  ⟨rfl, (getLatestReport_empty_history dbC3 0 "" (fun _ => none) rfl).1⟩

/-- C4: when the collaborator's response has no fenced JSON block, or
the extracted block fails to parse, `generateReport` still creates and
returns a new report whose structured payload is null. -/
theorem generateReport_enrichment_failure (db : Db) (now : Int)
    (rawText : String) (parse : String → Option Json)
    (h : extractJsonBlock rawText = none ∨
         ∃ s, extractJsonBlock rawText = some s ∧ parse s = none) :
    (generateReport db now rawText parse).1.data = none ∧
    (generateReport db now rawText parse).2.reports
      = db.reports ++ [(generateReport db now rawText parse).1] := by
  have hp : parsedDataOf rawText parse = none := by
    unfold parsedDataOf
    rcases h with h | ⟨s, hs, hparse⟩
    · rw [h]
    · rw [hs]
      by_cases he : s.isEmpty = true <;> simp [he, hparse]
  exact ⟨hp, rfl⟩

/-- A store with one session for the C4 witness. -/
def dbC4 : Db :=
  { sessions := [{ id := "s4", anonymousId := "anon-4", metadata := Json.null }],
    events := [], reports := [], nextReportId := 0 }

/-- Witness for C4: a plain-text collaborator reply with no fenced block
still yields a report row with a null payload. -/
theorem generateReport_enrichment_failure_witness :
    extractJsonBlock "plain prose with no fenced block" = none ∧
    (generateReport dbC4 7 "plain prose with no fenced block"
        (fun _ => none)).1.data = none :=
  ⟨rfl,
   (generateReport_enrichment_failure dbC4 7 "plain prose with no fenced block"
      (fun _ => none) (Or.inl rfl)).1⟩

/-- C6: for an existing session, `logEvent` answers 201 with
`eventsProcessed` equal to the length of the supplied events list and
appends exactly that many rows, each referencing the supplied
`sessionId`. -/
theorem logEvent_existing_session (db : Db) (body : LogEventBody)
    (sid : String) (evs : List EventInput)
    (hsid : body.sessionId = some sid) (hne : sid.isEmpty = false)
    (hex : (db.sessions.find? (fun s => s.id == sid)).isSome = true)
    (hevs : body.events = some evs) (hnil : evs ≠ []) :
    (logEvent body db).1.status = 201 ∧
    (logEvent body db).1.success = true ∧
    (logEvent body db).1.eventsProcessed = some evs.length ∧
    (logEvent body db).2.events = db.events ++ evs.map (stampEvent sid) ∧
    (evs.map (stampEvent sid)).length = evs.length ∧
    ∀ r ∈ evs.map (stampEvent sid), r.sessionId = sid := by
  obtain ⟨s, hs⟩ := Option.isSome_iff_exists.mp hex
  have hnone : (db.sessions.find? (fun s => s.id == sid)).isNone = false := by
    rw [hs]; rfl
  unfold logEvent
  rw [hsid, hevs]
  simp only [hne, Bool.false_eq_true, if_false, hnone, List.length_map,
    true_and]
  intro r hr
  obtain ⟨e, _, he⟩ := List.mem_map.mp hr
  rw [← he]
  rfl

/-- A store with one session for the C6 witness. -/
def dbC6 : Db :=
  { sessions := [{ id := "s6", anonymousId := "anon-6", metadata := Json.null }],
    events := [], reports := [], nextReportId := 0 }

/-- The two-event batch of the C6 witness. -/
def evsC6 : List EventInput :=
  [ { type := "click", metadata := Json.null, data := Json.null },
    { type := "scroll", metadata := Json.null, data := Json.null } ]

/-- Witness for C6 at a concrete session and two-event batch. -/
theorem logEvent_existing_session_witness :
    ((LogEventBody.mk (some "s6") (some evsC6)).sessionId = some "s6" ∧
      "s6".isEmpty = false ∧
      (dbC6.sessions.find? (fun s => s.id == "s6")).isSome = true ∧
      evsC6 ≠ []) ∧
    (logEvent (LogEventBody.mk (some "s6") (some evsC6)) dbC6).1.eventsProcessed
      = some evsC6.length :=
  ⟨⟨rfl, rfl, rfl, by exact List.cons_ne_nil _ _⟩,
   (logEvent_existing_session dbC6 (LogEventBody.mk (some "s6") (some evsC6))
      "s6" evsC6 rfl rfl rfl rfl (by exact List.cons_ne_nil _ _)).2.2.1⟩

/-- C7: a non-empty `sessionId` that identifies no existing session
makes `logEvent` answer 404 with `success := false` and leave the store
untouched, regardless of the event payload. -/
theorem logEvent_unknown_session (db : Db) (body : LogEventBody) (sid : String)
    (hsid : body.sessionId = some sid) (hne : sid.isEmpty = false)
    (habs : db.sessions.find? (fun s => s.id == sid) = none) :
    (logEvent body db).1.status = 404 ∧
    (logEvent body db).1.success = false ∧
    (logEvent body db).2 = db := by
  unfold logEvent
  rw [hsid]
  simp [hne, habs]

/-- An empty store for the C7 witness. -/
def dbC7 : Db := { sessions := [], events := [], reports := [], nextReportId := 0 }

/-- Witness for C7: an unknown session id draws a 404 even with a
non-empty event payload attached. -/
theorem logEvent_unknown_session_witness :
    (dbC7.sessions.find? (fun s => s.id == "ghost") = none ∧
      "ghost".isEmpty = false) ∧
    (logEvent
        (LogEventBody.mk (some "ghost")
          (some [{ type := "click", metadata := Json.null, data := Json.null }]))
        dbC7).1.status = 404 :=
  ⟨⟨rfl, rfl⟩,
   (logEvent_unknown_session dbC7
      (LogEventBody.mk (some "ghost")
        (some [{ type := "click", metadata := Json.null, data := Json.null }]))
      "ghost" rfl rfl rfl).1⟩

/-- C9 (amended): a request with a missing (or empty, hence falsy)
`sessionId` draws a 400 with `success := false`; a missing `events`
array is not validated and surfaces as a 500 instead. -/
theorem logEvent_missing_sessionId (db : Db) (body : LogEventBody)
    (h : body.sessionId = none ∨ body.sessionId = some "") :
    (logEvent body db).1.status = 400 ∧
    (logEvent body db).1.success = false := by
  rcases h with h | h <;>
    · unfold logEvent
      rw [h]
      exact ⟨rfl, rfl⟩

/-- Witness for the amended C9 at a body with no `sessionId`. -/
theorem logEvent_missing_sessionId_witness :
    ((LogEventBody.mk none none).sessionId = none ∨
      (LogEventBody.mk none none).sessionId = some "") ∧
    (logEvent (LogEventBody.mk none none) dbC7).1.status = 400 :=
  ⟨Or.inl rfl,
   (logEvent_missing_sessionId dbC7 (LogEventBody.mk none none) (Or.inl rfl)).1⟩

/-- A store with one session for the C9 counterexample. -/
def dbC9 : Db :=
  { sessions := [{ id := "s9", anonymousId := "anon-9", metadata := Json.null }],
    events := [], reports := [], nextReportId := 0 }

/-- Counterexample to C9 as stated: a body naming the existing session
`s9` but carrying no `events` array draws a 500 (the unchecked
`events.map` throws and the catch-all answers 500), not the claimed
400. -/
theorem logEvent_missing_events_cex :
    (logEvent (LogEventBody.mk (some "s9") none) dbC9).1.status = 500 ∧
    ¬ (logEvent (LogEventBody.mk (some "s9") none) dbC9).1.status = 400 := by
  constructor
  · rfl
  · decide

/-- C10: whenever `logEvent` answers 400 or 404, the event store is
exactly as it was before the call. -/
theorem logEvent_error_preserves_events (db : Db) (body : LogEventBody)
    (h : (logEvent body db).1.status = 400 ∨
         (logEvent body db).1.status = 404) :
    (logEvent body db).2.events = db.events := by
  obtain ⟨sid?, evs?⟩ := body
  cases sid? with
  | none => rfl
  | some sid =>
      by_cases he : sid.isEmpty = true
      · simp [logEvent, he]
      · cases hf : db.sessions.find? (fun s => s.id == sid) with
        | none => simp [logEvent, he, hf]
        | some s =>
            cases evs? with
            | none => simp [logEvent, he, hf]
            | some evs =>
                exfalso
                simp [logEvent, he, hf] at h

/-- Witness for C10: the 404 run of the C7 store changes nothing. -/
theorem logEvent_error_preserves_events_witness :
    ((logEvent (LogEventBody.mk (some "ghost2") none) dbC7).1.status = 400 ∨
      (logEvent (LogEventBody.mk (some "ghost2") none) dbC7).1.status = 404) ∧
    (logEvent (LogEventBody.mk (some "ghost2") none) dbC7).2.events
      = dbC7.events :=
  ⟨Or.inr rfl,
   logEvent_error_preserves_events dbC7 (LogEventBody.mk (some "ghost2") none)
     (Or.inr rfl)⟩

/-- C8: for a valid `(anonymousId, metadata)` pair and a freshly
generated identifier, `createSession` answers 201 echoing the
`anonymousId`, returns the previously-unseen id, and stores the
metadata verbatim on the new row. -/
theorem createSession_valid (db : Db) (a : String) (md : Json)
    (freshId : String) (ha : a.isEmpty = false)
    (hfresh : freshId ∉ db.sessions.map Session.id) :
    (createSession (CreateSessionBody.mk (some a) md) freshId db).1.status = 201 ∧
    (createSession (CreateSessionBody.mk (some a) md) freshId db).1.success = true ∧
    (createSession (CreateSessionBody.mk (some a) md) freshId db).1.anonymousId
      = some a ∧
    (createSession (CreateSessionBody.mk (some a) md) freshId db).1.id
      = some freshId ∧
    (∀ s ∈ db.sessions, s.id ≠ freshId) ∧
    (createSession (CreateSessionBody.mk (some a) md) freshId db).2.sessions
      = db.sessions ++ [{ id := freshId, anonymousId := a, metadata := md }] := by
  unfold createSession
  simp only [ha, Bool.false_eq_true, if_false, true_and, and_true]
  intro s hs heq
  exact hfresh (heq ▸ List.mem_map_of_mem Session.id hs)

/-- An empty store for the C8 witness. -/
def dbC8 : Db := { sessions := [], events := [], reports := [], nextReportId := 0 }

/-- Witness for C8 at a concrete valid pair and fresh id. -/
theorem createSession_valid_witness :
    ("alice".isEmpty = false ∧ "id-1" ∉ dbC8.sessions.map Session.id) ∧
    (createSession (CreateSessionBody.mk (some "alice") Json.null) "id-1"
        dbC8).1.anonymousId = some "alice" :=
  ⟨⟨rfl, by simp [dbC8]⟩,
   (createSession_valid dbC8 "alice" Json.null "id-1" rfl
      (by simp [dbC8])).2.2.1⟩

/-- A strictly earlier creation timestamp makes the computed
`diffInMinutes` strictly positive. -/
theorem diffInMinutes_pos (createdAt now : Int) (h : createdAt < now) :
    (0 : ℚ) < ((now : ℚ) - (createdAt : ℚ)) / 1000 / 60 := by
  have h1 : (createdAt : ℚ) < (now : ℚ) := by exact_mod_cast h
  have h2 : (0 : ℚ) < (now : ℚ) - (createdAt : ℚ) := sub_pos.mpr h1
  exact div_pos (div_pos h2 (by norm_num)) (by norm_num)

/-- C1: whenever the latest report's creation timestamp is strictly
earlier than the current time, `getLatestReport` regenerates: it
produces and returns a new report stamped `now` rather than the cached
one. -/
theorem getLatestReport_stale_regenerates (db : Db) (now : Int)
    (rawText : String) (parse : String → Option Json) (r : Report)
    (hl : latestReport db.reports = some r) (hlt : r.createdAt < now) :
    (getLatestReport db now rawText parse).1.status = 200 ∧
    (getLatestReport db now rawText parse).1.report.createdAt = now ∧
    (getLatestReport db now rawText parse).2.reports
      = db.reports ++ [(getLatestReport db now rawText parse).1.report] ∧
    (getLatestReport db now rawText parse).1.report ≠ r := by
  have hpos := diffInMinutes_pos r.createdAt now hlt
  have heq : getLatestReport db now rawText parse
      = ({ status := 200, report := (generateReport db now rawText parse).1 },
         (generateReport db now rawText parse).2) := by
    unfold getLatestReport
    rw [hl]
    show (if (0 : ℚ) < ((now : ℚ) - (r.createdAt : ℚ)) / 1000 / 60 then _
          else _) = _
    rw [if_pos hpos]
  rw [heq]
  refine ⟨rfl, rfl, rfl, ?_⟩
  intro hcontra
  have hts : now = r.createdAt := congrArg Report.createdAt hcontra
  omega

/-- A store with one stale report for the C1 witness. -/
def dbC1 : Db :=
  { sessions := [], events := [],
    reports := [{ id := 0, data := none, createdAt := 5 }],
    nextReportId := 1 }

/-- Witness for C1: a report created at time 5 queried at time 10 is
regenerated with the fresh timestamp. -/
theorem getLatestReport_stale_regenerates_witness :
    (latestReport dbC1.reports
        = some { id := 0, data := none, createdAt := 5 } ∧
      (5 : Int) < 10) ∧
    (getLatestReport dbC1 10 "" (fun _ => none)).1.report.createdAt = 10 :=
  ⟨⟨rfl, by decide⟩,
   (getLatestReport_stale_regenerates dbC1 10 "" (fun _ => none)
      { id := 0, data := none, createdAt := 5 } rfl (by decide)).2.1⟩

/-- Rendering of one aggregated event row as a JSON value, for stating
the spec's raw-aggregate persistence alternative. -/
def eventRowAsJson (e : EventRow) : Json :=
  Json.obj [("sessionId", Json.str e.sessionId), ("type", Json.str e.type),
            ("metadata", e.metadata), ("data", e.data)]

/-- Rendering of one per-session summary as a JSON value. -/
def summaryAsJson (s : SessionSummary) : Json :=
  Json.obj [("id", Json.str s.id), ("anonymousId", Json.str s.anonymousId),
            ("metadata", s.metadata),
            ("data", Json.arr (s.data.map eventRowAsJson)),
            ("totalEvents", Json.num (Int.ofNat s.totalEvents)),
            ("eventsByType",
             Json.obj (s.eventsByType.map
               (fun kv => (kv.1, Json.num (Int.ofNat kv.2)))))]

/-- Rendering of the full assembled aggregate as a JSON value. -/
def reportDataAsJson (rd : ReportData) : Json :=
  Json.obj [("totalSessions", Json.num (Int.ofNat rd.totalSessions)),
            ("sessions", Json.arr (rd.sessions.map summaryAsJson))]

/-- The persistence alternative claimed by the spec for
`generateReport`: the raw assembled aggregate is persisted when
enrichment did not succeed, the enriched JSON when it did. -/
def claimPersistRawOrEnriched (db : Db) (now : Int) (rawText : String)
    (parse : String → Option Json) : Prop :=
  (parsedDataOf rawText parse = none →
     (generateReport db now rawText parse).1.data
       = some (reportDataAsJson (buildReportData db))) ∧
  (∀ j, parsedDataOf rawText parse = some j →
     (generateReport db now rawText parse).1.data = some j)

/-- A store with one session and one event for the C5 counterexample. -/
def dbC5 : Db :=
  { sessions := [{ id := "s5", anonymousId := "anon-5", metadata := Json.null }],
    events :=
      [{ sessionId := "s5", type := "click", metadata := Json.null,
         data := Json.null }],
    reports := [], nextReportId := 0 }

/-- Counterexample to C5 as stated: on a collaborator reply with no
fenced block, the persisted payload is null, not the raw assembled
aggregate. -/
theorem generateReport_raw_fallback_cex :
    ¬ claimPersistRawOrEnriched dbC5 3 "reply without any fence"
        (fun _ => none) := by
  intro h
  have h1 := h.1 (by rfl)
  rw [show (generateReport dbC5 3 "reply without any fence"
        (fun _ => none)).1.data = none from rfl] at h1
  exact Option.noConfusion h1

/-- C5 (amended): the payload persisted by `generateReport` is exactly
the enrichment result — the parsed JSON of a non-empty fenced block when
extraction and parsing succeed, and null otherwise, never the raw
aggregate nor any third value — and the row carries the fresh creation
timestamp. -/
theorem generateReport_persists_enrichment_result (db : Db) (now : Int)
    (rawText : String) (parse : String → Option Json) :
    (generateReport db now rawText parse).1.createdAt = now ∧
    (generateReport db now rawText parse).2.reports
      = db.reports ++ [(generateReport db now rawText parse).1] ∧
    ((generateReport db now rawText parse).1.data = none ∨
     ∃ s j, extractJsonBlock rawText = some s ∧ s.isEmpty = false ∧
       parse s = some j ∧
       (generateReport db now rawText parse).1.data = some j) := by
  refine ⟨rfl, rfl, ?_⟩
  show parsedDataOf rawText parse = none ∨ _
  unfold parsedDataOf
  cases he : extractJsonBlock rawText with
  | none => exact Or.inl rfl
  | some s =>
      by_cases hemp : s.isEmpty = true
      · exact Or.inl (by simp [hemp])
      · cases hp : parse s with
        | none => exact Or.inl (by simp [hemp, hp])
        | some j =>
            exact Or.inr ⟨s, j, rfl, by simpa using hemp, hp,
              by simp [generateReport, parsedDataOf, he, hemp, hp]⟩
